import Mathlib

/-!
Verification of `subiquity/server/ubuntu_advantage.py`.

The module interfaces with the `ubuntu-advantage-tools` helper.  It defines
three domain errors (`InvalidTokenError`, `ExpiredTokenError`,
`CheckSubscriptionError`), two query strategies (`MockedUAInterfaceStrategy`
and `UAClientUAInterfaceStrategy`, both exposing `query_info`), and a
`UAInterface` whose `get_subscription` turns the raw JSON info into an
`UbuntuProSubscription` after an expiry check.

Embedding conventions:
* JSON values are the inductive `Json`; `json.loads` output of the external
  command's stdout is modelled as `Option Json` (`none` = `JSONDecodeError`).
* Python subscripting `d[k]`, iteration `for x in d`, and the attribute error
  on `.replace` are modelled by total functions returning `Except PyExc _`,
  so that uncaught Python exceptions are first-class outcomes.
* `datetime.fromisoformat(...).timestamp()` is an abstract parameter
  `fromisoformat_ts : String → Option Int` (the Python standard library is a
  collaborator outside this module); `none` models the `ValueError` raised by
  `fromisoformat` on unparsable input.  `dt.utcnow().timestamp()` is the
  parameter `now : Int`.
* The external process runner `utils.arun_command` (a collaborator outside
  this module) is a parameter `arun_command : List String → CompletedProcess`.
* The fixture files `examples/uaclient-status-{expired,valid}.json` read by
  the mocked strategy are parameters `expiredFixture validFixture : Json`.
-/

/-- JSON values, as produced by Python's `json.loads`.  Objects are listed
fields; `json.loads` produces dictionaries with unique keys (a later duplicate
key overwrites an earlier one), so field lists are assumed duplicate-free and
lookup takes the first binding. -/
inductive Json where
  | null
  | bool (b : Bool)
  | num (n : Int)
  | str (s : String)
  | arr (elems : List Json)
  | obj (fields : List (String × Json))

/-- Uncaught Python exceptions that can escape the embedded functions. -/
inductive PyExc where
  | keyError
  | typeError
  | valueError
  | attributeError
deriving DecidableEq, Repr

/-- Outcome of a call in this module: either a value, one of the three domain
exceptions defined in `ubuntu_advantage.py` (each carrying its payload), or an
uncaught Python exception. -/
inductive UAResult (α : Type) where
  | ok (a : α)
  | invalidTokenError (token : String) (message : String)
  | expiredTokenError (token : String) (expires : String) (message : String)
  | checkSubscriptionError (token : String) (message : String)
  | pyError (exc : PyExc)

/-- First binding of `key` in an object's field list (keys are unique in
JSON-parsed dictionaries). -/
def lookupField : List (String × Json) → String → Option Json
  | [], _ => none
  | (k, v) :: rest, key => if k = key then some v else lookupField rest key

/-- Python subscripting `j[key]` with a string key: the bound value when `j`
is a dictionary containing `key`, `KeyError` when the key is absent from a
dictionary, `TypeError` when `j` is not a dictionary (lists, strings, numbers,
booleans and `None` all reject string subscripts). -/
def pySubscript (j : Json) (key : String) : Except PyExc Json :=
  match j with
  | Json.obj fields =>
    match lookupField fields key with
    | some v => Except.ok v
    | none => Except.error PyExc.keyError
  | _ => Except.error PyExc.typeError

/-- Python iteration `for x in j`: the elements of a list, the characters of a
string (as one-character strings), the keys of a dictionary (in insertion
order), and `TypeError` for the non-iterable values. -/
def pyIter (j : Json) : Except PyExc (List Json) :=
  match j with
  | Json.arr elems => Except.ok elems
  | Json.str s => Except.ok (s.data.map fun c => Json.str (String.singleton c))
  | Json.obj fields => Except.ok (fields.map fun kv => Json.str kv.1)
  | _ => Except.error PyExc.typeError

/-- Python string equality test `j == lit` between a JSON value and a string
literal: true exactly when `j` is that string (comparing a non-string to a
string is `False`, never an error). -/
def jsonEqStr (j : Json) (lit : String) : Bool :=
  match j with
  | Json.str s => s = lit
  | _ => false

/-- `info["expires"].replace("Z", "+00:00")`: Python `str.replace` with the
one-character pattern `"Z"` substitutes `"+00:00"` for every occurrence of the
character `Z` in the string. -/
def replaceZ (s : String) : String :=
  String.mk (s.data.flatMap fun c => if c = 'Z' then "+00:00".data else [c])

/-- Result of `utils.arun_command` relevant to `query_info`: the exit status,
and the stdout already passed through `json.loads` (`none` models
`json.JSONDecodeError`). -/
structure CompletedProcess where
  returncode : Int
  stdoutJson : Option Json

/-- The argument vector built by `UAClientUAInterfaceStrategy.query_info`. -/
def uaStatusCommand (executable : List String) (token : String) : List String :=
  executable ++ ["status", "--format", "json", "--simulate-with-token", token]

/-- `MockedUAInterfaceStrategy.query_info`.  The artificial
`asyncio.sleep(1 / scale_factor)` has no effect on the returned value and is
omitted.  The two fixture files read by `json.load` (under `examples/`, not
part of this module) enter as the parameters `expiredFixture` and
`validFixture`. -/
def MockedUAInterfaceStrategy.query_info (expiredFixture validFixture : Json)
    (token : String) : UAResult Json :=
  match token.data with
  | [] => UAResult.invalidTokenError token ""
  | c :: _ =>
    if c = 'x' then UAResult.ok expiredFixture
    else if c = 'i' then UAResult.invalidTokenError token ""
    else if c = 'f' then UAResult.checkSubscriptionError token ""
    else UAResult.ok validFixture

/-- The `for error in data["errors"]` loop running under
`contextlib.suppress(KeyError)`, with `token_invalid` accumulated in `acc`.
Each iteration evaluates `error["message_code"] == "attach-invalid-token"`
(a `KeyError` here ends the block keeping the current `acc`), then the
`log.debug` line subscripts `error["message_code"]` (already present) and
`error["message"]` (a `KeyError` here ends the block after `acc` was already
updated).  A `TypeError` from subscripting a non-dictionary entry is not
suppressed. -/
def scanErrors : List Json → Bool → Except PyExc Bool
  | [], acc => Except.ok acc
  | e :: rest, acc =>
    match pySubscript e "message_code" with
    | Except.error PyExc.keyError => Except.ok acc
    | Except.error exc => Except.error exc
    | Except.ok mc =>
      let acc' := if jsonEqStr mc "attach-invalid-token" then true else acc
      match pySubscript e "message" with
      | Except.error PyExc.keyError => Except.ok acc'
      | Except.error exc => Except.error exc
      | Except.ok _ => scanErrors rest acc'

/-- Value of `token_invalid` after the `with contextlib.suppress(KeyError)`
block in `UAClientUAInterfaceStrategy.query_info`: `data["errors"]` raising
`KeyError` is suppressed and leaves `token_invalid = False`; a `TypeError`
(from subscripting or iterating an unsuitable value) is not suppressed. -/
def tokenInvalidAfterLoop (data : Json) : Except PyExc Bool :=
  match data with
  | Json.obj fields =>
    match lookupField fields "errors" with
    | none => Except.ok false
    | some errs =>
      match pyIter errs with
      | Except.error exc => Except.error exc
      | Except.ok entries => scanErrors entries false
  | _ => Except.error PyExc.typeError

/-- `UAClientUAInterfaceStrategy.query_info`.  The external executable is run
through the abstract `arun_command`; its stdout is modelled already parsed
(`CompletedProcess.stdoutJson`). -/
def UAClientUAInterfaceStrategy.query_info (executable : List String)
    (arun_command : List String → CompletedProcess)
    (token : String) : UAResult Json :=
  if token = "" then UAResult.invalidTokenError token ""
  else
    let command := uaStatusCommand executable token
    let proc := arun_command command
    let message := "Unable to retrieve subscription information."
    if proc.returncode = 0 then
      match proc.stdoutJson with
      | some j => UAResult.ok j
      | none => UAResult.checkSubscriptionError token message
    else if proc.returncode = 1 then
      match proc.stdoutJson with
      | none => UAResult.checkSubscriptionError token message
      | some data =>
        match tokenInvalidAfterLoop data with
        | Except.error exc => UAResult.pyError exc
        | Except.ok true => UAResult.invalidTokenError token ""
        | Except.ok false => UAResult.checkSubscriptionError token message
    else UAResult.checkSubscriptionError token message

/-- Modelled from the spec: the domain Activable Service
(`subiquity.common.types.UbuntuProService`, not under the given sources):
`name`, `description`, `auto_enabled` (boolean).  `name` and `description`
hold whatever JSON values the raw record carried. -/
structure UbuntuProService where
  name : Json
  description : Json
  auto_enabled : Bool

/-- Modelled from the spec: the domain Subscription
(`subiquity.common.types.UbuntuProSubscription`, not under the given
sources): `account_name`, `contract_name`, `contract_token` (the input token,
echoed back), `services` (ordered sequence of Activable Service). -/
structure UbuntuProSubscription where
  account_name : Json
  contract_name : Json
  contract_token : String
  services : List UbuntuProService

/-- `is_activable_service`: `service["available"] == "yes" and
service["entitled"] == "yes"`, with Python's short-circuit `and` (the
`entitled` subscript is not evaluated when `available` is not `"yes"`). -/
def is_activable_service (service : Json) : Except PyExc Bool :=
  match pySubscript service "available" with
  | Except.error exc => Except.error exc
  | Except.ok av =>
    if jsonEqStr av "yes" then
      match pySubscript service "entitled" with
      | Except.error exc => Except.error exc
      | Except.ok en => Except.ok (jsonEqStr en "yes")
    else Except.ok false

/-- `service_from_dict`: builds an `UbuntuProService` from the raw record;
the keyword arguments are evaluated left to right (`name`, `description`,
`auto_enabled`). -/
def service_from_dict (service : Json) : Except PyExc UbuntuProService :=
  match pySubscript service "name" with
  | Except.error exc => Except.error exc
  | Except.ok n =>
    match pySubscript service "description" with
    | Except.error exc => Except.error exc
    | Except.ok d =>
      match pySubscript service "auto_enabled" with
      | Except.error exc => Except.error exc
      | Except.ok ae => Except.ok ⟨n, d, jsonEqStr ae "yes"⟩

/-- The `for service in info["services"]` loop building
`activable_services`: skip entries for which `is_activable_service` is false,
append `service_from_dict` for the others, preserving order. -/
def collectServices : List Json → Except PyExc (List UbuntuProService)
  | [] => Except.ok []
  | s :: rest =>
    match is_activable_service s with
    | Except.error exc => Except.error exc
    | Except.ok false => collectServices rest
    | Except.ok true =>
      match service_from_dict s with
      | Except.error exc => Except.error exc
      | Except.ok svc =>
        match collectServices rest with
        | Except.error exc => Except.error exc
        | Except.ok others => Except.ok (svc :: others)

/-- Body of `UAInterface.get_subscription` after the raw info was obtained:
parse `info["expires"]` (a non-string `expires` raises `AttributeError` at
`.replace`, an unparsable string raises `ValueError` inside `fromisoformat`),
raise `ExpiredTokenError` when the expiry is at or before `now`, then collect
the activable services and build the subscription from `info["account"]["name"]`
and `info["contract"]["name"]`. -/
def getSubscriptionFromInfo (fromisoformat_ts : String → Option Int)
    (now : Int) (token : String) (info : Json) :
    UAResult UbuntuProSubscription :=
  match pySubscript info "expires" with
  | Except.error exc => UAResult.pyError exc
  | Except.ok expiresJson =>
    match expiresJson with
    | Json.str expires =>
      match fromisoformat_ts (replaceZ expires) with
      | none => UAResult.pyError PyExc.valueError
      | some expiration =>
        if expiration ≤ now then UAResult.expiredTokenError token expires ""
        else
          match pySubscript info "services" with
          | Except.error exc => UAResult.pyError exc
          | Except.ok servicesJson =>
            match pyIter servicesJson with
            | Except.error exc => UAResult.pyError exc
            | Except.ok services =>
              match collectServices services with
              | Except.error exc => UAResult.pyError exc
              | Except.ok activable =>
                match pySubscript info "account" with
                | Except.error exc => UAResult.pyError exc
                | Except.ok account =>
                  match pySubscript account "name" with
                  | Except.error exc => UAResult.pyError exc
                  | Except.ok accountName =>
                    match pySubscript info "contract" with
                    | Except.error exc => UAResult.pyError exc
                    | Except.ok contract =>
                      match pySubscript contract "name" with
                      | Except.error exc => UAResult.pyError exc
                      | Except.ok contractName =>
                        UAResult.ok ⟨accountName, contractName, token, activable⟩
    | _ => UAResult.pyError PyExc.attributeError

/-- `UAInterface.get_subscription_status`: delegates to the configured
strategy without transformation. -/
def UAInterface.get_subscription_status (strategy : String → UAResult Json)
    (token : String) : UAResult Json :=
  strategy token

/-- `UAInterface.get_subscription`: obtain the raw info through the strategy
(propagating its errors unchanged) and transform it. -/
def UAInterface.get_subscription (fromisoformat_ts : String → Option Int)
    (now : Int) (strategy : String → UAResult Json)
    (token : String) : UAResult UbuntuProSubscription :=
  match UAInterface.get_subscription_status strategy token with
  | UAResult.ok info => getSubscriptionFromInfo fromisoformat_ts now token info
  | UAResult.invalidTokenError t m => UAResult.invalidTokenError t m
  | UAResult.expiredTokenError t e m => UAResult.expiredTokenError t e m
  | UAResult.checkSubscriptionError t m => UAResult.checkSubscriptionError t m
  | UAResult.pyError exc => UAResult.pyError exc

/-! ## Helper definitions used by the statements -/

/-- A well-formed error entry, per the expected stdout format of the external
tool: a JSON object carrying both a `message_code` and a `message` key. -/
def wellFormedError (e : Json) : Bool :=
  match e with
  | Json.obj fields =>
    (lookupField fields "message_code").isSome &&
      (lookupField fields "message").isSome
  | _ => false

/-- Whether an error entry carries the invalid-token sentinel
`attach-invalid-token` in its `message_code` field. -/
def hasInvalidTokenCode (e : Json) : Bool :=
  match e with
  | Json.obj fields =>
    match lookupField fields "message_code" with
    | some mc => jsonEqStr mc "attach-invalid-token"
    | none => false
  | _ => false

/-- Follows the spec's words (service filtering): a raw service is activable
iff both `available == "yes"` and `entitled == "yes"`. -/
def specIsActivable (e : Json) : Bool :=
  match e with
  | Json.obj fields =>
    (match lookupField fields "available" with
     | some v => jsonEqStr v "yes"
     | none => false) &&
    (match lookupField fields "entitled" with
     | some v => jsonEqStr v "yes"
     | none => false)
  | _ => false

/-- Follows the spec's words: the Activable Service built from a raw service
record carries that record's `name` and `description`, and `auto_enabled`
true iff the raw field is `"yes"`.  (A missing field defaults to `null`; on
the records this is compared against, the fields are present.) -/
def specService (e : Json) : UbuntuProService :=
  match e with
  | Json.obj fields =>
    { name := (lookupField fields "name").getD Json.null
      description := (lookupField fields "description").getD Json.null
      auto_enabled :=
        match lookupField fields "auto_enabled" with
        | some v => jsonEqStr v "yes"
        | none => false }
  | _ => ⟨Json.null, Json.null, false⟩

/-! ## Helper lemmas -/

theorem string_eq_empty_of_data_nil {s : String} (h : s.data = []) : s = "" := by
  cases s
  simp_all [String.data]

theorem pySubscript_error_cases (j : Json) (key : String) (exc : PyExc)
    (h : pySubscript j key = Except.error exc) :
    exc = PyExc.keyError ∨ exc = PyExc.typeError := by
  cases j <;> simp [pySubscript] at h <;> try exact Or.inr h.symm
  rename_i fields
  cases hf : lookupField fields key <;> simp [hf] at h
  exact Or.inl h.symm

theorem scanErrors_ne_keyError (entries : List Json) :
    ∀ acc, scanErrors entries acc ≠ Except.error PyExc.keyError := by
  induction entries with
  | nil => intro acc h; simp [scanErrors] at h
  | cons e rest ih =>
    intro acc h
    unfold scanErrors at h
    cases hmc : pySubscript e "message_code" with
    | error exc =>
      rw [hmc] at h
      cases hx : exc <;> subst hx <;> simp at h
    | ok mc =>
      rw [hmc] at h
      cases hm : pySubscript e "message" with
      | error exc =>
        rw [hm] at h
        cases hx : exc <;> subst hx <;> simp at h
      | ok m =>
        rw [hm] at h
        exact ih _ h

theorem tokenInvalidAfterLoop_ne_keyError (data : Json) :
    tokenInvalidAfterLoop data ≠ Except.error PyExc.keyError := by
  intro h
  unfold tokenInvalidAfterLoop at h
  cases data <;> simp at h
  rename_i fields
  cases he : lookupField fields "errors" with
  | none => rw [he] at h; simp at h
  | some errs =>
    rw [he] at h
    cases errs <;> simp [pyIter] at h <;>
      exact scanErrors_ne_keyError _ _ h

/-- On a list of well-formed error entries the suppressed scan runs to
completion and reports whether some entry carries the sentinel. -/
theorem scanErrors_wellFormed (entries : List Json) :
    ∀ acc, (∀ e ∈ entries, wellFormedError e = true) →
      scanErrors entries acc =
        Except.ok (acc || entries.any hasInvalidTokenCode) := by
  induction entries with
  | nil => intro acc _; simp [scanErrors]
  | cons e rest ih =>
    intro acc hwf
    have he : wellFormedError e = true := hwf e (by simp)
    cases e <;> simp [wellFormedError] at he
    rename_i fields
    obtain ⟨hmc, hm⟩ := he
    rw [Option.isSome_iff_exists] at hmc hm
    obtain ⟨mc, hmc⟩ := hmc
    obtain ⟨m, hm⟩ := hm
    rw [scanErrors]
    simp only [pySubscript, hmc, hm]
    rw [ih _ (fun e' he' => hwf e' (by simp [he']))]
    congr 1
    simp only [List.any_cons, hasInvalidTokenCode, hmc]
    cases hc : jsonEqStr mc "attach-invalid-token" <;> simp [hc]

theorem is_activable_service_ok (svc : Json) (b : Bool)
    (h : is_activable_service svc = Except.ok b) : specIsActivable svc = b := by
  cases svc with
  | obj fields =>
    cases hav : lookupField fields "available" with
    | none => simp [is_activable_service, pySubscript, hav] at h
    | some av =>
      cases hb : jsonEqStr av "yes" with
      | false =>
        simp [is_activable_service, pySubscript, hav, hb] at h
        simp_all [specIsActivable]
      | true =>
        cases hen : lookupField fields "entitled" with
        | none => simp [is_activable_service, pySubscript, hav, hb, hen] at h
        | some en =>
          simp [is_activable_service, pySubscript, hav, hb, hen] at h
          simp_all [specIsActivable]
  | null => simp [is_activable_service, pySubscript] at h
  | bool b' => simp [is_activable_service, pySubscript] at h
  | num n => simp [is_activable_service, pySubscript] at h
  | str s => simp [is_activable_service, pySubscript] at h
  | arr l => simp [is_activable_service, pySubscript] at h

theorem service_from_dict_ok (svc : Json) (u : UbuntuProService)
    (h : service_from_dict svc = Except.ok u) : u = specService svc := by
  cases svc <;> simp [service_from_dict, pySubscript] at h
  rename_i fields
  cases hn : lookupField fields "name" with
  | none => rw [hn] at h; simp at h
  | some n =>
    rw [hn] at h
    cases hd : lookupField fields "description" with
    | none => rw [hd] at h; simp at h
    | some d =>
      rw [hd] at h
      cases ha : lookupField fields "auto_enabled" with
      | none => rw [ha] at h; simp at h
      | some ae =>
        rw [ha] at h
        simp at h
        rw [← h]
        simp [specService, hn, hd, ha]

theorem collectServices_ok (l : List Json) :
    ∀ out, collectServices l = Except.ok out →
      out = (l.filter specIsActivable).map specService := by
  induction l with
  | nil => intro out h; simp [collectServices] at h; simp [← h]
  | cons s rest ih =>
    intro out h
    unfold collectServices at h
    cases hact : is_activable_service s with
    | error exc => rw [hact] at h; simp at h
    | ok b =>
      rw [hact] at h
      have hspec := is_activable_service_ok s b hact
      cases b with
      | false =>
        simp at h
        simp [List.filter_cons, hspec]
        exact ih out h
      | true =>
        simp at h
        cases hfd : service_from_dict s with
        | error exc => rw [hfd] at h; simp at h
        | ok svc =>
          rw [hfd] at h
          cases hcs : collectServices rest with
          | error exc => rw [hcs] at h; simp at h
          | ok others =>
            rw [hcs] at h
            simp at h
            rw [← h]
            simp [List.filter_cons, hspec]
            exact ⟨service_from_dict_ok s svc hfd, ih others hcs⟩

/-- Inversion: a successfully built subscription implies the expiry was
parsed from a string `expires` field, lies strictly after `now`, and the
service list came from the collection loop; the token is echoed back. -/
theorem getSubscriptionFromInfo_ok (fromiso : String → Option Int) (now : Int)
    (token : String) (info : Json) (s : UbuntuProSubscription)
    (h : getSubscriptionFromInfo fromiso now token info = UAResult.ok s) :
    ∃ e t svcJson svcs,
      pySubscript info "expires" = Except.ok (Json.str e) ∧
      fromiso (replaceZ e) = some t ∧ now < t ∧
      pySubscript info "services" = Except.ok svcJson ∧
      pyIter svcJson = Except.ok svcs ∧
      collectServices svcs = Except.ok s.services ∧
      s.contract_token = token := by
  unfold getSubscriptionFromInfo at h
  cases hexp : pySubscript info "expires" with
  | error exc => rw [hexp] at h; simp at h
  | ok ej =>
    rw [hexp] at h
    simp only [] at h
    cases ej with
    | str e =>
      simp only [] at h
      cases hts : fromiso (replaceZ e) with
      | none => rw [hts] at h; simp at h
      | some t =>
        rw [hts] at h
        simp only [] at h
        by_cases hle : t ≤ now
        · rw [if_pos hle] at h; simp at h
        · rw [if_neg hle] at h
          cases hsv : pySubscript info "services" with
          | error exc => rw [hsv] at h; simp at h
          | ok svcJson =>
            rw [hsv] at h
            simp only [] at h
            cases hit : pyIter svcJson with
            | error exc => rw [hit] at h; simp at h
            | ok svcs =>
              rw [hit] at h
              simp only [] at h
              cases hcs : collectServices svcs with
              | error exc => rw [hcs] at h; simp at h
              | ok activable =>
                rw [hcs] at h
                simp only [] at h
                cases hacct : pySubscript info "account" with
                | error exc => rw [hacct] at h; simp at h
                | ok account =>
                  rw [hacct] at h
                  simp only [] at h
                  cases han : pySubscript account "name" with
                  | error exc => rw [han] at h; simp at h
                  | ok accountName =>
                    rw [han] at h
                    simp only [] at h
                    cases hct : pySubscript info "contract" with
                    | error exc => rw [hct] at h; simp at h
                    | ok contract =>
                      rw [hct] at h
                      simp only [] at h
                      cases hcn : pySubscript contract "name" with
                      | error exc => rw [hcn] at h; simp at h
                      | ok contractName =>
                        rw [hcn] at h
                        simp only [UAResult.ok.injEq] at h
                        subst h
                        exact ⟨e, t, svcJson, svcs, rfl, hts, by omega,
                          rfl, hit, hcs, rfl⟩
    | null => simp at h
    | bool b => simp at h
    | num n => simp at h
    | arr l => simp at h
    | obj l => simp at h

/-- Inversion: `getSubscriptionFromInfo` raises `ExpiredTokenError` exactly
when the `expires` field is a string whose parsed timestamp is at or before
`now`; the error carries the input token, the raw `expires` string, and an
empty message. -/
theorem getSubscriptionFromInfo_expired (fromiso : String → Option Int)
    (now : Int) (token : String) (info : Json) (tk e m : String) :
    getSubscriptionFromInfo fromiso now token info =
        UAResult.expiredTokenError tk e m ↔
      (tk = token ∧ m = "" ∧
       pySubscript info "expires" = Except.ok (Json.str e) ∧
       ∃ t, fromiso (replaceZ e) = some t ∧ t ≤ now) := by
  constructor
  · intro h
    unfold getSubscriptionFromInfo at h
    cases hexp : pySubscript info "expires" with
    | error exc => rw [hexp] at h; simp at h
    | ok ej =>
      rw [hexp] at h
      simp only [] at h
      cases ej with
      | str e' =>
        simp only [] at h
        cases hts : fromiso (replaceZ e') with
        | none => rw [hts] at h; simp at h
        | some t =>
          rw [hts] at h
          simp only [] at h
          by_cases hle : t ≤ now
          · rw [if_pos hle] at h
            injection h with h1 h2 h3
            subst h1; subst h2; subst h3
            exact ⟨rfl, rfl, rfl, t, hts, hle⟩
          · rw [if_neg hle] at h
            cases hsv : pySubscript info "services" with
            | error exc => rw [hsv] at h; simp at h
            | ok svcJson =>
              rw [hsv] at h
              simp only [] at h
              cases hit : pyIter svcJson with
              | error exc => rw [hit] at h; simp at h
              | ok svcs =>
                rw [hit] at h
                simp only [] at h
                cases hcs : collectServices svcs with
                | error exc => rw [hcs] at h; simp at h
                | ok act =>
                  rw [hcs] at h
                  simp only [] at h
                  cases ha : pySubscript info "account" with
                  | error exc => rw [ha] at h; simp at h
                  | ok account =>
                    rw [ha] at h
                    simp only [] at h
                    cases han : pySubscript account "name" with
                    | error exc => rw [han] at h; simp at h
                    | ok an =>
                      rw [han] at h
                      simp only [] at h
                      cases hc : pySubscript info "contract" with
                      | error exc => rw [hc] at h; simp at h
                      | ok contract =>
                        rw [hc] at h
                        simp only [] at h
                        cases hcn : pySubscript contract "name" with
                        | error exc => rw [hcn] at h; simp at h
                        | ok cn => rw [hcn] at h; simp at h
      | null => simp at h
      | bool b => simp at h
      | num n => simp at h
      | arr l => simp at h
      | obj l => simp at h
  · rintro ⟨rfl, rfl, hexp, t, hts, hle⟩
    unfold getSubscriptionFromInfo
    rw [hexp]
    simp only []
    rw [hts]
    simp only []
    rw [if_pos hle]

/-! ## Claims -/

/-- C3: for the empty-string token, `query_info` of both strategies fails
with `InvalidTokenError` carrying that token, and the executable-backed
strategy never invokes the external process: its result does not depend on
the process runner at all. -/
theorem empty_token_invalid_token_no_process :
    (∀ expiredFixture validFixture,
       MockedUAInterfaceStrategy.query_info expiredFixture validFixture "" =
         UAResult.invalidTokenError "" "")
    ∧ (∀ executable arun_command,
       UAClientUAInterfaceStrategy.query_info executable arun_command "" =
         UAResult.invalidTokenError "" "")
    ∧ (∀ executable arun₁ arun₂,
       UAClientUAInterfaceStrategy.query_info executable arun₁ "" =
         UAClientUAInterfaceStrategy.query_info executable arun₂ "") :=
  ⟨fun _ _ => rfl, fun _ _ => rfl, fun _ _ _ => rfl⟩

/-- C6: executable-backed strategy on a non-empty token, exit code 0: stdout
parsing as JSON is returned unchanged as the raw info; unparsable stdout
gives the generic `CheckSubscriptionError` (not a raw parse exception). -/
theorem uaclient_exit0_returns_json (executable : List String)
    (arun_command : List String → CompletedProcess) (token : String)
    (htok : token ≠ "") :
    (∀ j, arun_command (uaStatusCommand executable token) =
        CompletedProcess.mk 0 (some j) →
      UAClientUAInterfaceStrategy.query_info executable arun_command token =
        UAResult.ok j)
    ∧ (arun_command (uaStatusCommand executable token) =
        CompletedProcess.mk 0 none →
      UAClientUAInterfaceStrategy.query_info executable arun_command token =
        UAResult.checkSubscriptionError token
          "Unable to retrieve subscription information.") := by
  constructor
  · intro j hp
    simp [UAClientUAInterfaceStrategy.query_info, htok, hp]
  · intro hp
    simp [UAClientUAInterfaceStrategy.query_info, htok, hp]

/-- Witness for C6 at a concrete process outcome. -/
theorem uaclient_exit0_returns_json_witness :
    UAClientUAInterfaceStrategy.query_info ["ubuntu-advantage"]
        (fun _ => CompletedProcess.mk 0 (some (Json.str "hello"))) "C123" =
      UAResult.ok (Json.str "hello") :=
  (uaclient_exit0_returns_json ["ubuntu-advantage"]
      (fun _ => CompletedProcess.mk 0 (some (Json.str "hello"))) "C123"
      (by decide)).1 (Json.str "hello") rfl

/-- C1: executable-backed strategy, non-empty token, exit code 1 with stdout
parsing as JSON whose `errors` list holds well-formed `{message_code,
message}` entries: if some entry's `message_code` equals the sentinel
`attach-invalid-token` the call fails with `InvalidTokenError` carrying the
token; if no entry matches, or the exit code is any value other than 0 or 1,
it fails with `CheckSubscriptionError` carrying the token and the fixed
message. -/
theorem uaclient_exit1_classification (executable : List String)
    (arun_command : List String → CompletedProcess) (token : String)
    (htok : token ≠ "") (fields : List (String × Json)) (entries : List Json)
    (herr : lookupField fields "errors" = some (Json.arr entries))
    (hwf : ∀ e ∈ entries, wellFormedError e = true)
    (hp : arun_command (uaStatusCommand executable token) =
      CompletedProcess.mk 1 (some (Json.obj fields))) :
    (entries.any hasInvalidTokenCode = true →
       UAClientUAInterfaceStrategy.query_info executable arun_command token =
         UAResult.invalidTokenError token "")
    ∧ (entries.any hasInvalidTokenCode = false →
       UAClientUAInterfaceStrategy.query_info executable arun_command token =
         UAResult.checkSubscriptionError token
           "Unable to retrieve subscription information.")
    ∧ (∀ (arun₂ : List String → CompletedProcess) (rc : Int)
         (out : Option Json), rc ≠ 0 → rc ≠ 1 →
         arun₂ (uaStatusCommand executable token) =
           CompletedProcess.mk rc out →
         UAClientUAInterfaceStrategy.query_info executable arun₂ token =
           UAResult.checkSubscriptionError token
             "Unable to retrieve subscription information.") := by
  have key : tokenInvalidAfterLoop (Json.obj fields) =
      Except.ok (entries.any hasInvalidTokenCode) := by
    simp only [tokenInvalidAfterLoop, herr, pyIter]
    rw [scanErrors_wellFormed entries false hwf]
    simp
  refine ⟨?_, ?_, ?_⟩
  · intro hany
    simp [UAClientUAInterfaceStrategy.query_info, htok, hp, key, hany]
  · intro hany
    simp [UAClientUAInterfaceStrategy.query_info, htok, hp, key, hany]
  · intro arun₂ rc out h0 h1 hp₂
    simp [UAClientUAInterfaceStrategy.query_info, htok, hp₂, h0, h1]

/-- Witness for C1 at a concrete errors payload carrying the sentinel. -/
theorem uaclient_exit1_classification_witness :
    UAClientUAInterfaceStrategy.query_info ["ubuntu-advantage"]
        (fun _ => CompletedProcess.mk 1 (some (Json.obj [("errors",
          Json.arr [Json.obj [("message_code",
            Json.str "attach-invalid-token"),
            ("message", Json.str "invalid token supplied")]])])))
        "C123" =
      UAResult.invalidTokenError "C123" "" :=
  (uaclient_exit1_classification ["ubuntu-advantage"]
      (fun _ => CompletedProcess.mk 1 (some (Json.obj [("errors",
        Json.arr [Json.obj [("message_code",
          Json.str "attach-invalid-token"),
          ("message", Json.str "invalid token supplied")]])])))
      "C123" (by decide)
      [("errors", Json.arr [Json.obj [("message_code",
        Json.str "attach-invalid-token"),
        ("message", Json.str "invalid token supplied")]])]
      [Json.obj [("message_code", Json.str "attach-invalid-token"),
        ("message", Json.str "invalid token supplied")]]
      rfl (by decide) rfl).1 (by decide)

/-- C9: a missing `errors` key, or a missing `message_code` or `message` key
in an error entry, never escapes `query_info` as a raw `KeyError`; the scan
over error entries stops at the first offending entry, so a sentinel entry
occurring only after an entry lacking `message_code` goes undetected and the
call fails with `CheckSubscriptionError` instead of `InvalidTokenError`. -/
theorem uaclient_keyerror_suppressed :
    (∀ executable arun_command token,
       UAClientUAInterfaceStrategy.query_info executable arun_command token ≠
         UAResult.pyError PyExc.keyError)
    ∧ (∀ (efs : List (String × Json)) (rest : List Json) (acc : Bool),
       lookupField efs "message_code" = none →
       scanErrors (Json.obj efs :: rest) acc = Except.ok acc)
    ∧ (∀ (efs : List (String × Json)) (mc : Json) (rest : List Json)
         (acc : Bool),
       lookupField efs "message_code" = some mc →
       lookupField efs "message" = none →
       scanErrors (Json.obj efs :: rest) acc =
         Except.ok (if jsonEqStr mc "attach-invalid-token" then true else acc))
    ∧ (∀ executable arun_command token (efs : List (String × Json))
         (rest : List Json),
       token ≠ "" →
       lookupField efs "message_code" = none →
       (∃ e ∈ rest, hasInvalidTokenCode e = true) →
       arun_command (uaStatusCommand executable token) =
         CompletedProcess.mk 1 (some (Json.obj
           [("errors", Json.arr (Json.obj efs :: rest))])) →
       UAClientUAInterfaceStrategy.query_info executable arun_command token =
         UAResult.checkSubscriptionError token
           "Unable to retrieve subscription information.") := by
  refine ⟨?_, ?_, ?_, ?_⟩
  · intro executable arun_command token hcontra
    unfold UAClientUAInterfaceStrategy.query_info at hcontra
    by_cases ht : token = ""
    · rw [if_pos ht] at hcontra; simp at hcontra
    · rw [if_neg ht] at hcontra
      simp only [] at hcontra
      by_cases h0 : (arun_command (uaStatusCommand executable
          token)).returncode = 0
      · rw [if_pos h0] at hcontra
        cases ho : (arun_command (uaStatusCommand executable
            token)).stdoutJson <;> rw [ho] at hcontra <;> simp at hcontra
      · rw [if_neg h0] at hcontra
        by_cases h1 : (arun_command (uaStatusCommand executable
            token)).returncode = 1
        · rw [if_pos h1] at hcontra
          cases ho : (arun_command (uaStatusCommand executable
              token)).stdoutJson with
          | none => rw [ho] at hcontra; simp at hcontra
          | some data =>
            rw [ho] at hcontra
            simp only [] at hcontra
            cases hti : tokenInvalidAfterLoop data with
            | error exc =>
              rw [hti] at hcontra
              simp at hcontra
              subst hcontra
              exact tokenInvalidAfterLoop_ne_keyError data hti
            | ok b =>
              cases b <;> rw [hti] at hcontra <;> simp at hcontra
        · rw [if_neg h1] at hcontra; simp at hcontra
  · intro efs rest acc hmc
    unfold scanErrors
    simp [pySubscript, hmc]
  · intro efs mc rest acc hmc hm
    unfold scanErrors
    simp [pySubscript, hmc, hm]
  · intro executable arun_command token efs rest ht hmc _hsentinel hp
    have key : tokenInvalidAfterLoop (Json.obj
        [("errors", Json.arr (Json.obj efs :: rest))]) = Except.ok false := by
      simp only [tokenInvalidAfterLoop, lookupField, pyIter]
      unfold scanErrors
      simp [pySubscript, hmc]
    simp [UAClientUAInterfaceStrategy.query_info, ht, hp, key]

/-- Witness for C9: an entry lacking `message_code` ahead of a sentinel entry
leads to the generic failure, not `InvalidTokenError`. -/
theorem uaclient_keyerror_suppressed_witness :
    UAClientUAInterfaceStrategy.query_info ["ubuntu-advantage"]
        (fun _ => CompletedProcess.mk 1 (some (Json.obj [("errors",
          Json.arr [Json.obj [("message", Json.str "no code here")],
            Json.obj [("message_code", Json.str "attach-invalid-token"),
              ("message", Json.str "invalid token supplied")]])])))
        "C123" =
      UAResult.checkSubscriptionError "C123"
        "Unable to retrieve subscription information." :=
  uaclient_keyerror_suppressed.2.2.2 ["ubuntu-advantage"]
    (fun _ => CompletedProcess.mk 1 (some (Json.obj [("errors",
      Json.arr [Json.obj [("message", Json.str "no code here")],
        Json.obj [("message_code", Json.str "attach-invalid-token"),
          ("message", Json.str "invalid token supplied")]])])))
    "C123" [("message", Json.str "no code here")]
    [Json.obj [("message_code", Json.str "attach-invalid-token"),
      ("message", Json.str "invalid token supplied")]]
    (by decide) rfl
    ⟨Json.obj [("message_code", Json.str "attach-invalid-token"),
      ("message", Json.str "invalid token supplied")], by simp, by decide⟩
    rfl

/-- C2: when the strategy query succeeds with a raw info record,
`get_subscription` fails with `ExpiredTokenError` (carrying the token and the
raw `expires` string) exactly when the parsed expiry is at or before the
current time, and a subscription value is returned only when the parsed
expiry is strictly in the future — so none exists for an expired or
unparsable record. -/
theorem get_subscription_expiry_check (fromiso : String → Option Int)
    (now : Int) (strategy : String → UAResult Json) (token : String)
    (info : Json) (hq : strategy token = UAResult.ok info) :
    ((∃ s, UAInterface.get_subscription fromiso now strategy token =
        UAResult.ok s) →
      ∃ e t, pySubscript info "expires" = Except.ok (Json.str e) ∧
        fromiso (replaceZ e) = some t ∧ now < t)
    ∧ (∀ tk e m, UAInterface.get_subscription fromiso now strategy token =
          UAResult.expiredTokenError tk e m ↔
        (tk = token ∧ m = "" ∧
         pySubscript info "expires" = Except.ok (Json.str e) ∧
         ∃ t, fromiso (replaceZ e) = some t ∧ t ≤ now)) := by
  have hred : UAInterface.get_subscription fromiso now strategy token =
      getSubscriptionFromInfo fromiso now token info := by
    unfold UAInterface.get_subscription UAInterface.get_subscription_status
    rw [hq]
  constructor
  · rintro ⟨s, hs⟩
    rw [hred] at hs
    obtain ⟨e, t, svcJson, svcs, hexp, hts, hlt, -, -, -, -⟩ :=
      getSubscriptionFromInfo_ok fromiso now token info s hs
    exact ⟨e, t, hexp, hts, hlt⟩
  · intro tk e m
    rw [hred]
    exact getSubscriptionFromInfo_expired fromiso now token info tk e m

/-- Witness for C2 at a concrete expired record. -/
theorem get_subscription_expiry_check_witness :
    UAInterface.get_subscription
        (fun s => if s = "2000-01-01T00:00:00+00:00" then some 0 else none) 5
        (fun _ => UAResult.ok (Json.obj
          [("expires", Json.str "2000-01-01T00:00:00Z")])) "C123" =
      UAResult.expiredTokenError "C123" "2000-01-01T00:00:00Z" "" :=
  ((get_subscription_expiry_check
      (fun s => if s = "2000-01-01T00:00:00+00:00" then some 0 else none) 5
      (fun _ => UAResult.ok (Json.obj
        [("expires", Json.str "2000-01-01T00:00:00Z")])) "C123"
      (Json.obj [("expires", Json.str "2000-01-01T00:00:00Z")])
      rfl).2 "C123" "2000-01-01T00:00:00Z" "").mpr
    ⟨rfl, rfl, rfl, 0, by decide, by decide⟩

/-- C4: for every raw record accepted by `get_subscription`, the resulting
service list is exactly the raw services having both `available == "yes"`
and `entitled == "yes"`, in raw order, each mapped to its `name`,
`description`, and boolean `auto_enabled` (raw field equal to `"yes"`). -/
theorem get_subscription_service_filtering (fromiso : String → Option Int)
    (now : Int) (strategy : String → UAResult Json) (token : String)
    (info : Json) (raw : List Json) (s : UbuntuProSubscription)
    (hq : strategy token = UAResult.ok info)
    (hsvc : pySubscript info "services" = Except.ok (Json.arr raw))
    (hok : UAInterface.get_subscription fromiso now strategy token =
      UAResult.ok s) :
    s.services = (raw.filter specIsActivable).map specService := by
  have hred : UAInterface.get_subscription fromiso now strategy token =
      getSubscriptionFromInfo fromiso now token info := by
    unfold UAInterface.get_subscription UAInterface.get_subscription_status
    rw [hq]
  rw [hred] at hok
  obtain ⟨e, t, svcJson, svcs, hexp, hts, hlt, hsv, hit, hcs, -⟩ :=
    getSubscriptionFromInfo_ok fromiso now token info s hok
  rw [hsvc] at hsv
  injection hsv with h1
  subst h1
  simp only [pyIter] at hit
  injection hit with h2
  subst h2
  exact collectServices_ok raw s.services hcs

/-- Witness for C4: one activable and one non-activable raw service. -/
theorem get_subscription_service_filtering_witness :
    ([⟨Json.str "esm-infra", Json.str "d1", true⟩] : List UbuntuProService) =
      ([Json.obj [("name", Json.str "esm-infra"),
          ("description", Json.str "d1"), ("available", Json.str "yes"),
          ("entitled", Json.str "yes"), ("auto_enabled", Json.str "yes")],
        Json.obj [("name", Json.str "livepatch"),
          ("description", Json.str "d2"), ("available", Json.str "yes"),
          ("entitled", Json.str "no"),
          ("auto_enabled", Json.str "no")]].filter specIsActivable).map
        specService :=
  get_subscription_service_filtering (fun _ => some 1) 0
    (fun _ => UAResult.ok (Json.obj [("expires", Json.str "9999"),
      ("services", Json.arr [Json.obj [("name", Json.str "esm-infra"),
          ("description", Json.str "d1"), ("available", Json.str "yes"),
          ("entitled", Json.str "yes"), ("auto_enabled", Json.str "yes")],
        Json.obj [("name", Json.str "livepatch"),
          ("description", Json.str "d2"), ("available", Json.str "yes"),
          ("entitled", Json.str "no"), ("auto_enabled", Json.str "no")]]),
      ("account", Json.obj [("name", Json.str "acct")]),
      ("contract", Json.obj [("name", Json.str "contr")])])) "C123"
    (Json.obj [("expires", Json.str "9999"),
      ("services", Json.arr [Json.obj [("name", Json.str "esm-infra"),
          ("description", Json.str "d1"), ("available", Json.str "yes"),
          ("entitled", Json.str "yes"), ("auto_enabled", Json.str "yes")],
        Json.obj [("name", Json.str "livepatch"),
          ("description", Json.str "d2"), ("available", Json.str "yes"),
          ("entitled", Json.str "no"), ("auto_enabled", Json.str "no")]]),
      ("account", Json.obj [("name", Json.str "acct")]),
      ("contract", Json.obj [("name", Json.str "contr")])])
    [Json.obj [("name", Json.str "esm-infra"),
        ("description", Json.str "d1"), ("available", Json.str "yes"),
        ("entitled", Json.str "yes"), ("auto_enabled", Json.str "yes")],
      Json.obj [("name", Json.str "livepatch"),
        ("description", Json.str "d2"), ("available", Json.str "yes"),
        ("entitled", Json.str "no"), ("auto_enabled", Json.str "no")]]
    ⟨Json.str "acct", Json.str "contr", "C123",
      [⟨Json.str "esm-infra", Json.str "d1", true⟩]⟩
    rfl rfl rfl

/-- C8: a successful `get_subscription` against the simulated strategy for a
non-empty token not starting with `x`, `i`, or `f` echoes the input token in
the subscription's `contract_token`. -/
theorem get_subscription_token_roundtrip (fromiso : String → Option Int)
    (now : Int) (expiredFixture validFixture : Json)
    (c : Char) (rest : List Char) (token : String)
    (htok : token.data = c :: rest)
    (hx : c ≠ 'x') (hi : c ≠ 'i') (hf : c ≠ 'f')
    (s : UbuntuProSubscription)
    (hok : UAInterface.get_subscription fromiso now
        (MockedUAInterfaceStrategy.query_info expiredFixture validFixture)
        token = UAResult.ok s) :
    s.contract_token = token := by
  have hq : MockedUAInterfaceStrategy.query_info expiredFixture validFixture
      token = UAResult.ok validFixture := by
    unfold MockedUAInterfaceStrategy.query_info
    rw [htok]
    simp [hx, hi, hf]
  have hred : UAInterface.get_subscription fromiso now
      (MockedUAInterfaceStrategy.query_info expiredFixture validFixture)
      token = getSubscriptionFromInfo fromiso now token validFixture := by
    unfold UAInterface.get_subscription UAInterface.get_subscription_status
    rw [hq]
  rw [hred] at hok
  obtain ⟨e, t, svcJson, svcs, -, -, -, -, -, -, hct⟩ :=
    getSubscriptionFromInfo_ok fromiso now token validFixture s hok
  exact hct

/-- Witness for C8 at a concrete valid fixture. -/
theorem get_subscription_token_roundtrip_witness :
    (⟨Json.null, Json.null, "C123", []⟩ :
      UbuntuProSubscription).contract_token = "C123" :=
  get_subscription_token_roundtrip (fun _ => some 1) 0 Json.null
    (Json.obj [("expires", Json.str "9999"), ("services", Json.arr []),
      ("account", Json.obj [("name", Json.null)]),
      ("contract", Json.obj [("name", Json.null)])])
    'C' ['1', '2', '3'] "C123" rfl (by decide) (by decide) (by decide)
    ⟨Json.null, Json.null, "C123", []⟩ rfl

/-- C5: the simulated strategy's `query_info` on a non-empty token is
classified by the first character: `i` fails with `InvalidTokenError`, `f`
fails with `CheckSubscriptionError`, `x` returns the expired fixture (on
which `get_subscription` fails with `ExpiredTokenError` carrying that
fixture's `expires` value), and any other first character returns the valid
fixture, on which `get_subscription` succeeds. -/
theorem mocked_query_info_classification (expiredFixture validFixture : Json)
    (fromiso : String → Option Int) (now : Int)
    (c : Char) (rest : List Char) (token : String)
    (htok : token.data = c :: rest)
    (eexp : String) (texp : Int)
    (hexp : pySubscript expiredFixture "expires" = Except.ok (Json.str eexp))
    (hparse : fromiso (replaceZ eexp) = some texp) (hle : texp ≤ now)
    (hval : ∃ s, getSubscriptionFromInfo fromiso now token validFixture =
      UAResult.ok s) :
    (c = 'i' → MockedUAInterfaceStrategy.query_info expiredFixture
        validFixture token = UAResult.invalidTokenError token "")
    ∧ (c = 'f' → MockedUAInterfaceStrategy.query_info expiredFixture
        validFixture token = UAResult.checkSubscriptionError token "")
    ∧ (c = 'x' → MockedUAInterfaceStrategy.query_info expiredFixture
          validFixture token = UAResult.ok expiredFixture ∧
        UAInterface.get_subscription fromiso now
            (MockedUAInterfaceStrategy.query_info expiredFixture
              validFixture) token =
          UAResult.expiredTokenError token eexp "")
    ∧ (c ≠ 'x' → c ≠ 'i' → c ≠ 'f' →
        MockedUAInterfaceStrategy.query_info expiredFixture validFixture
          token = UAResult.ok validFixture ∧
        ∃ s, UAInterface.get_subscription fromiso now
            (MockedUAInterfaceStrategy.query_info expiredFixture
              validFixture) token =
          UAResult.ok s) := by
  refine ⟨?_, ?_, ?_, ?_⟩
  · intro hc
    subst hc
    unfold MockedUAInterfaceStrategy.query_info
    rw [htok]
    simp
  · intro hc
    subst hc
    unfold MockedUAInterfaceStrategy.query_info
    rw [htok]
    simp
  · intro hc
    subst hc
    have hq : MockedUAInterfaceStrategy.query_info expiredFixture
        validFixture token = UAResult.ok expiredFixture := by
      unfold MockedUAInterfaceStrategy.query_info
      rw [htok]
      simp
    refine ⟨hq, ?_⟩
    have hred : UAInterface.get_subscription fromiso now
        (MockedUAInterfaceStrategy.query_info expiredFixture validFixture)
        token = getSubscriptionFromInfo fromiso now token expiredFixture := by
      unfold UAInterface.get_subscription UAInterface.get_subscription_status
      rw [hq]
    rw [hred]
    exact (getSubscriptionFromInfo_expired fromiso now token expiredFixture
      token eexp "").mpr ⟨rfl, rfl, hexp, texp, hparse, hle⟩
  · intro hx hi hf
    have hq : MockedUAInterfaceStrategy.query_info expiredFixture
        validFixture token = UAResult.ok validFixture := by
      unfold MockedUAInterfaceStrategy.query_info
      rw [htok]
      simp [hx, hi, hf]
    refine ⟨hq, ?_⟩
    have hred : UAInterface.get_subscription fromiso now
        (MockedUAInterfaceStrategy.query_info expiredFixture validFixture)
        token = getSubscriptionFromInfo fromiso now token validFixture := by
      unfold UAInterface.get_subscription UAInterface.get_subscription_status
      rw [hq]
    rw [hred]
    exact hval

/-- Witness for C5 at the expired branch with concrete fixtures. -/
theorem mocked_query_info_classification_witness :
    MockedUAInterfaceStrategy.query_info
        (Json.obj [("expires", Json.str "2010Z")])
        (Json.obj [("expires", Json.str "9999"),
          ("services", Json.arr []),
          ("account", Json.obj [("name", Json.null)]),
          ("contract", Json.obj [("name", Json.null)])]) "x-token" =
      UAResult.ok (Json.obj [("expires", Json.str "2010Z")]) ∧
    UAInterface.get_subscription
        (fun s => if s = "2010+00:00" then some 0 else some 1) 0
        (MockedUAInterfaceStrategy.query_info
          (Json.obj [("expires", Json.str "2010Z")])
          (Json.obj [("expires", Json.str "9999"),
            ("services", Json.arr []),
            ("account", Json.obj [("name", Json.null)]),
            ("contract", Json.obj [("name", Json.null)])])) "x-token" =
      UAResult.expiredTokenError "x-token" "2010Z" "" :=
  (mocked_query_info_classification
      (Json.obj [("expires", Json.str "2010Z")])
      (Json.obj [("expires", Json.str "9999"),
        ("services", Json.arr []),
        ("account", Json.obj [("name", Json.null)]),
        ("contract", Json.obj [("name", Json.null)])])
      (fun s => if s = "2010+00:00" then some 0 else some 1) 0
      'x' "-token".data "x-token" rfl "2010Z" 0 rfl (by decide) (by decide)
      ⟨⟨Json.null, Json.null, "x-token", []⟩, rfl⟩).2.2.1 rfl

theorem replaceZ_append (a b : String) :
    replaceZ (a ++ b) = replaceZ a ++ replaceZ b := by
  unfold replaceZ
  rw [String.data_append, List.flatMap_append]
  rfl

theorem flatMapZ_length_le (l : List Char) :
    l.length ≤ (l.flatMap fun c =>
      if c = 'Z' then "+00:00".data else [c]).length := by
  induction l with
  | nil => simp
  | cons c cs ih =>
    rw [List.flatMap_cons, List.length_append, List.length_cons]
    have h6 : ("+00:00".data).length = 6 := rfl
    have h1 : ([c] : List Char).length = 1 := rfl
    by_cases hc : c = 'Z'
    · rw [if_pos hc]
      omega
    · rw [if_neg hc]
      omega

theorem flatMapZ_length_lt (l : List Char) (h : 'Z' ∈ l) :
    l.length < (l.flatMap fun c =>
      if c = 'Z' then "+00:00".data else [c]).length := by
  induction l with
  | nil => simp at h
  | cons c cs ih =>
    rw [List.flatMap_cons, List.length_append, List.length_cons]
    have h6 : ("+00:00".data).length = 6 := rfl
    have h1 : ([c] : List Char).length = 1 := rfl
    have hle := flatMapZ_length_le cs
    rcases List.mem_cons.mp h with rfl | hmem
    · rw [if_pos rfl]
      omega
    · by_cases hc : c = 'Z'
      · rw [if_pos hc]
        omega
      · rw [if_neg hc]
        have hlt := ih hmem
        omega

/-- C7: in `get_subscription`, an `expires` value ending in `Z` and the same
value with the equivalent explicit `+00:00` offset produce the same
ExpiredToken-versus-success outcome. -/
theorem expires_Z_suffix_equivalent (fromiso : String → Option Int)
    (now : Int) (token : String) (p : String)
    (fields : List (String × Json)) :
    (∀ s, getSubscriptionFromInfo fromiso now token
          (Json.obj (("expires", Json.str (p ++ "Z")) :: fields)) =
        UAResult.ok s ↔
      getSubscriptionFromInfo fromiso now token
          (Json.obj (("expires", Json.str (p ++ "+00:00")) :: fields)) =
        UAResult.ok s)
    ∧ ((∃ tk e m, getSubscriptionFromInfo fromiso now token
          (Json.obj (("expires", Json.str (p ++ "Z")) :: fields)) =
        UAResult.expiredTokenError tk e m) ↔
      (∃ tk e m, getSubscriptionFromInfo fromiso now token
          (Json.obj (("expires", Json.str (p ++ "+00:00")) :: fields)) =
        UAResult.expiredTokenError tk e m)) := by
  have key : replaceZ (p ++ "Z") = replaceZ (p ++ "+00:00") := by
    rw [replaceZ_append, replaceZ_append]
    rfl
  have hsub : ∀ v : String,
      pySubscript (Json.obj (("expires", Json.str v) :: fields)) "expires" =
        Except.ok (Json.str v) := by
    intro v
    simp [pySubscript, lookupField]
  have hsk : ∀ (v key' : String), ("expires" : String) ≠ key' →
      pySubscript (Json.obj (("expires", Json.str v) :: fields)) key' =
        pySubscript (Json.obj fields) key' := by
    intro v key' hk
    simp [pySubscript, lookupField, hk]
  constructor
  · intro s
    unfold getSubscriptionFromInfo
    simp only [hsub, key,
      hsk (p ++ "Z") "services" (by decide),
      hsk (p ++ "+00:00") "services" (by decide),
      hsk (p ++ "Z") "account" (by decide),
      hsk (p ++ "+00:00") "account" (by decide),
      hsk (p ++ "Z") "contract" (by decide),
      hsk (p ++ "+00:00") "contract" (by decide)]
    cases hf : fromiso (replaceZ (p ++ "+00:00")) with
    | none => simp
    | some t =>
      by_cases hle : t ≤ now
      · simp [hle]
      · simp [hle]
  · unfold getSubscriptionFromInfo
    simp only [hsub, key,
      hsk (p ++ "Z") "services" (by decide),
      hsk (p ++ "+00:00") "services" (by decide),
      hsk (p ++ "Z") "account" (by decide),
      hsk (p ++ "+00:00") "account" (by decide),
      hsk (p ++ "Z") "contract" (by decide),
      hsk (p ++ "+00:00") "contract" (by decide)]
    cases hf : fromiso (replaceZ (p ++ "+00:00")) with
    | none => simp
    | some t =>
      by_cases hle : t ≤ now
      · simp [hle]
      · simp [hle]

/-- C10: the normalization in `get_subscription` replaces every occurrence
of `Z` in the `expires` string with `+00:00`, not only a trailing suffix, so
a string with a non-trailing `Z` reaches the parser changed there too. -/
theorem replaceZ_replaces_every_occurrence :
    (∀ a b : String, replaceZ (a ++ "Z" ++ b) =
      replaceZ a ++ "+00:00" ++ replaceZ b)
    ∧ (∀ s : String, 'Z' ∈ s.data → replaceZ s ≠ s)
    ∧ replaceZ "20Z5-01-01T00:00:00Z" = "20+00:005-01-01T00:00:00+00:00" := by
  refine ⟨?_, ?_, rfl⟩
  · intro a b
    rw [replaceZ_append, replaceZ_append]
    rfl
  · intro s hz hcontra
    have hlen : (s.data.flatMap fun c =>
        if c = 'Z' then "+00:00".data else [c]).length = s.data.length :=
      congrArg List.length (congrArg String.data hcontra)
    have := flatMapZ_length_lt s.data hz
    omega

/-- Witness for C10 on a string with an interior `Z`. -/
theorem replaceZ_replaces_every_occurrence_witness :
    replaceZ "20Z5" ≠ "20Z5" :=
  replaceZ_replaces_every_occurrence.2.1 "20Z5" (by decide)
